import Mathlib

/-
Verification of the networkvector concurrent discovery engine
(src/nvector.py).

This file gives a shallow embedding of the parts of the scanner that the
stated properties talk about:

* the OS fingerprint classifier `RawPortScanner.detect_os` (pure function
  of the open-port list, nvector.py lines 245-453);
* the per-host open-port collection and sorting of
  `RawPortScanner.scan_host` (lines 162-243);
* the single-probe contract of `RawPortScanner.scan_port` (lines 144-160);
* the target-parsing and result-aggregation behaviour of
  `RawPortScanner.scan_network` (lines 455-513), including the mutable
  per-instance maps `scan_results`, `share_results` and `host_details`
  initialised in `__init__` (lines 112-123).

Machine floats (response times) are not modelled: no verified property
depends on a timing value, only on whether one is present.  Python dicts
keyed by host strings are modelled as functions `String → Option _`.
-/

namespace NetworkVector

/-! ## OS fingerprint classifier (nvector.py 245-453)

Each signature dictionary of `detect_os` becomes a function from a port
number to the integer score contributed by that port (0 for ports absent
from the dictionary).  All scores in the source are non-negative integer
literals, so scores live in `Nat`. -/

/-- The `windows_signatures` dict of `detect_os` (nvector.py 259-279). -/
def windows_signatures (p : Nat) : Nat :=
  if p = 135 then 4 else if p = 139 then 3 else if p = 445 then 3
  else if p = 3389 then 5 else if p = 1433 then 3 else if p = 1434 then 3
  else if p = 5357 then 4 else if p = 5985 then 4 else if p = 5986 then 4
  else if p = 593 then 3 else if p = 49152 then 2 else if p = 49153 then 2
  else if p = 49154 then 2 else if p = 49155 then 2 else if p = 1024 then 2
  else if p = 1025 then 2 else if p = 1026 then 2 else if p = 1027 then 2
  else if p = 8080 then 1 else 0

/-- The `linux_signatures` dict of `detect_os` (nvector.py 282-296). -/
def linux_signatures (p : Nat) : Nat :=
  if p = 22 then 3 else if p = 111 then 3 else if p = 2049 then 4
  else if p = 514 then 3 else if p = 515 then 3 else if p = 993 then 2
  else if p = 995 then 2 else if p = 6000 then 3 else if p = 6001 then 3
  else if p = 6002 then 3 else if p = 7000 then 2 else if p = 10000 then 3
  else if p = 20000 then 2 else 0

/-- The `macos_signatures` dict of `detect_os` (nvector.py 299-307). -/
def macos_signatures (p : Nat) : Nat :=
  if p = 548 then 4 else if p = 631 then 3 else if p = 5009 then 4
  else if p = 5353 then 2 else if p = 62078 then 4 else if p = 3283 then 3
  else if p = 5222 then 2 else 0

/-- The `embedded_signatures` dict of `detect_os` (nvector.py 310-319). -/
def embedded_signatures (p : Nat) : Nat :=
  if p = 81 then 3 else if p = 82 then 3 else if p = 8008 then 3
  else if p = 9999 then 3 else if p = 4444 then 3 else if p = 8888 then 3
  else if p = 9000 then 2 else if p = 10001 then 3 else 0

/-- Windows bias of the `database_services` dict (nvector.py 322-328). -/
def database_windows (p : Nat) : Nat :=
  if p = 3306 then 1 else if p = 5432 then 1 else if p = 1521 then 2
  else if p = 27017 then 1 else if p = 6379 then 1 else 0

/-- Linux bias of the `database_services` dict (nvector.py 322-328). -/
def database_linux (p : Nat) : Nat :=
  if p = 3306 then 2 else if p = 5432 then 3 else if p = 1521 then 2
  else if p = 27017 then 2 else if p = 6379 then 2 else 0

/-- Windows bias of the `web_services` dict (nvector.py 330-337). -/
def web_windows (p : Nat) : Nat :=
  if p = 80 then 1 else if p = 443 then 1 else if p = 8080 then 2
  else if p = 8443 then 1 else if p = 9080 then 1 else if p = 9443 then 1
  else 0

/-- Linux bias of the `web_services` dict (nvector.py 330-337). -/
def web_linux (p : Nat) : Nat :=
  if p = 80 then 2 else if p = 443 then 2 else if p = 8080 then 1
  else if p = 8443 then 2 else if p = 9080 then 2 else if p = 9443 then 2
  else 0

/-- Windows combination bonuses of the `port_combinations` dict
(nvector.py 374-390): added when every port of the tuple is a member of
`open_ports` (nvector.py 393-402). -/
def windowsCombos (ps : List Nat) : Nat :=
  (if 135 ∈ ps ∧ 139 ∈ ps ∧ 445 ∈ ps then 5 else 0) +
  (if 135 ∈ ps ∧ 445 ∈ ps ∧ 3389 ∈ ps then 6 else 0) +
  (if 139 ∈ ps ∧ 445 ∈ ps then 3 else 0) +
  (if 1433 ∈ ps ∧ 1434 ∈ ps then 4 else 0)

/-- Linux combination bonuses of `port_combinations` (nvector.py 381-385). -/
def linuxCombos (ps : List Nat) : Nat :=
  (if 22 ∈ ps ∧ 111 ∈ ps ∧ 2049 ∈ ps then 5 else 0) +
  (if 22 ∈ ps ∧ 80 ∈ ps ∧ 443 ∈ ps then 3 else 0) +
  (if 22 ∈ ps ∧ 3306 ∈ ps then 3 else 0) +
  (if 22 ∈ ps ∧ 5432 ∈ ps then 3 else 0)

/-- macOS combination bonuses of `port_combinations` (nvector.py 387-389). -/
def macosCombos (ps : List Nat) : Nat :=
  (if 548 ∈ ps ∧ 631 ∈ ps then 4 else 0) +
  (if 22 ∈ ps ∧ 548 ∈ ps then 3 else 0)

/-- `windows_score` after the per-port loop (nvector.py 340-371) and the
combination pass (nvector.py 393-402).  The loop iterates over the
`open_ports` list, so a port occurring twice contributes twice. -/
def windowsScore (ps : List Nat) : Nat :=
  (ps.map (fun p => windows_signatures p + database_windows p + web_windows p)).sum
    + windowsCombos ps

/-- `linux_score` after the per-port loop and the combination pass. -/
def linuxScore (ps : List Nat) : Nat :=
  (ps.map (fun p => linux_signatures p + database_linux p + web_linux p)).sum
    + linuxCombos ps

/-- `macos_score` after the per-port loop and the combination pass. -/
def macosScore (ps : List Nat) : Nat :=
  (ps.map macos_signatures).sum + macosCombos ps

/-- `embedded_score` after the per-port loop (no combination bonuses exist
for the embedded category). -/
def embeddedScore (ps : List Nat) : Nat :=
  (ps.map embedded_signatures).sum

/-- `max_score = max(windows_score, linux_score, macos_score, embedded_score)`
(nvector.py 405). -/
def maxScore (ps : List Nat) : Nat :=
  max (windowsScore ps) (max (linuxScore ps) (max (macosScore ps) (embeddedScore ps)))

/-- The externally observable part of the dict returned by `detect_os`:
its `os` and `confidence` entries.  The free-text `details`,
`detected_services` and `port_analysis` diagnostic entries are not
modelled; no verified property mentions them. -/
structure OSResult where
  os : String
  confidence : String
deriving DecidableEq, Repr

/-- The `os_name` picked in the Windows branch (nvector.py 417): a
Windows-server port among the open ports upgrades the name. -/
def winName (ps : List Nat) : String :=
  if 1433 ∈ ps ∨ 1434 ∈ ps ∨ 5985 ∈ ps ∨ 5986 ∈ ps then "Windows Server"
  else "Windows"

/-- Windows confidence thresholds (nvector.py 416). -/
def winConfidence (ps : List Nat) : String :=
  if 6 ≤ windowsScore ps then "High"
  else if 3 ≤ windowsScore ps then "Medium" else "Low"

/-- Linux confidence thresholds (nvector.py 420). -/
def linuxConfidence (ps : List Nat) : String :=
  if 5 ≤ linuxScore ps then "High"
  else if 3 ≤ linuxScore ps then "Medium" else "Low"

/-- macOS confidence thresholds (nvector.py 424). -/
def macosConfidence (ps : List Nat) : String :=
  if 4 ≤ macosScore ps then "High"
  else if 2 ≤ macosScore ps then "Medium" else "Low"

/-- Embedded confidence thresholds (nvector.py 428). -/
def embeddedConfidence (ps : List Nat) : String :=
  if 3 ≤ embeddedScore ps then "Medium" else "Low"

/-- `RawPortScanner.detect_os` (nvector.py 245-453), restricted to the
`os`/`confidence` components.  The branch structure mirrors the source:
empty-input early return (248), the `max_score == 0` return (407-412),
the `if/elif` chain on which score attains the maximum (415-430), and the
final fall-through `Conflicting indicators` return (431-436). -/
def detect_os (ps : List Nat) : OSResult :=
  if ps = [] then ⟨"Unknown", "Low"⟩
  else if maxScore ps = 0 then ⟨"Unknown", "Low"⟩
  else if windowsScore ps = maxScore ps ∧ 0 < windowsScore ps then
    ⟨winName ps, winConfidence ps⟩
  else if linuxScore ps = maxScore ps ∧ 0 < linuxScore ps then
    ⟨"Linux/Unix", linuxConfidence ps⟩
  else if macosScore ps = maxScore ps ∧ 0 < macosScore ps then
    ⟨"macOS", macosConfidence ps⟩
  else if embeddedScore ps = maxScore ps ∧ 0 < embeddedScore ps then
    ⟨"Embedded/IoT", embeddedConfidence ps⟩
  else ⟨"Unknown", "Low"⟩

/-- The four OS categories of the classifier, plus the unknown outcome.
Used to state which branch of the `if/elif` chain produced a result. -/
inductive OSCat where
  | windows
  | linux
  | macos
  | embedded
  | unknown
deriving DecidableEq, Repr

/-- Category of a classifier result, read off its `os` string.  Both
`"Windows"` and `"Windows Server"` belong to the Windows category. -/
def catOf (r : OSResult) : OSCat :=
  if r.os = "Windows" ∨ r.os = "Windows Server" then OSCat.windows
  else if r.os = "Linux/Unix" then OSCat.linux
  else if r.os = "macOS" then OSCat.macos
  else if r.os = "Embedded/IoT" then OSCat.embedded
  else OSCat.unknown

/-- Modelled from the spec: the documented tie-break policy — among the
categories attaining the maximum score, the first one in the fixed
precedence Windows > Linux > macOS > Embedded wins. -/
def firstMaxCat (ps : List Nat) : OSCat :=
  if windowsScore ps = maxScore ps then OSCat.windows
  else if linuxScore ps = maxScore ps then OSCat.linux
  else if macosScore ps = maxScore ps then OSCat.macos
  else OSCat.embedded

/-! ## Port prober (`RawPortScanner.scan_port`, nvector.py 144-160)

The socket interaction of one probe either completes `connect_ex` with an
integer error code (0 on success — `connect_ex` reports connection
refusal and timeouts through its return code rather than by raising), or
raises a `socket.error` (for example `socket.gaierror` from name
resolution inside `connect_ex`; all listed kinds subclass `OSError`,
which `socket.error` aliases).  Elapsed time is whatever
`time.time() - start_time` evaluated to and is modelled as an abstract
`Nat`.  Ports outside 0..65535 would make the socket layer raise
`OverflowError` (not a `socket.error`); the stated property restricts
ports to 1-65535, so that outcome is outside the modelled domain. -/

/-- Socket-level error kinds that can be raised during one in-range probe. -/
inductive SocketErr where
  | refused
  | timedOut
  | unreachable
  | hostDown
  | gaierror
deriving DecidableEq, Repr

/-- Outcome of the socket interaction inside `scan_port`. -/
inductive ConnectOutcome where
  | completed (errcode : Int) (elapsed : Nat)
  | raisedSocketError (e : SocketErr)
deriving DecidableEq, Repr

/-- `RawPortScanner.scan_port` (nvector.py 144-160): the `try` body tests
`connect_ex`'s result against 0, and the `except socket.error` clause
maps every raised socket error to `(False, None)`.  The `Except` result
type records whether an exception propagates to the caller (it never
does). -/
def scan_port (o : ConnectOutcome) : Except SocketErr (Bool × Option Nat) :=
  match o with
  | ConnectOutcome.completed errcode elapsed =>
      if errcode = 0 then Except.ok (true, some elapsed)
      else Except.ok (false, none)
  | ConnectOutcome.raisedSocketError _ => Except.ok (false, none)

/-- Whether the probe's socket interaction was a successful connect. -/
def outcomeIsOpen (o : ConnectOutcome) : Bool :=
  match o with
  | ConnectOutcome.completed errcode _ => errcode == 0
  | ConnectOutcome.raisedSocketError _ => false

/-- The elapsed-time value `scan_port` reports: present exactly for a
successful connect. -/
def outcomeElapsed (o : ConnectOutcome) : Option Nat :=
  match o with
  | ConnectOutcome.completed errcode elapsed =>
      if errcode = 0 then some elapsed else none
  | ConnectOutcome.raisedSocketError _ => none

/-! ## Host scanner (`RawPortScanner.scan_host`, nvector.py 162-243)

`scan_host` submits one probe per entry of its (possibly shuffled) port
list — `future_to_port` is keyed by the distinct `Future` objects, so a
duplicated port is probed once per occurrence — appends each open port to
`open_ports` in completion order, and finally stores
`sorted(open_ports)`.  The completion order is a permutation of the
submitted list; since the stored list is sorted, the stored value depends
only on the multiset of open probes, which we realise with
`List.insertionSort` applied to the filtered port list.  The per-port
open/closed outcome of a stable target is modelled as a Boolean oracle. -/

/-- The sorted open-port list `sorted(open_ports)` that `scan_host`
records for a host (nvector.py 199/219), as a function of the submitted
port list and the target's stable per-port outcome. -/
def scanHostOpenPorts (ports : List Nat) (isOpen : Nat → Bool) : List Nat :=
  List.insertionSort (· ≤ ·) (ports.filter isOpen)

/-- The `scan_results` entry a host ends up with: `scan_host` publishes
`sorted(open_ports)` only when `open_ports` is non-empty (nvector.py
218-219); a host with no open ports is absent. -/
def hostRecord (ports : List Nat) (isOpen : Nat → Bool) : Option (List Nat) :=
  if scanHostOpenPorts ports isOpen = [] then none
  else some (scanHostOpenPorts ports isOpen)

/-- The per-host open-port map produced by one `scan_network` dispatch
over a host list (nvector.py 487-496): each listed host is scanned with
its own (possibly shuffled) port list; unlisted hosts have no entry.
`portOrders` gives the port list actually iterated for each host, so
shuffling is an instance of this definition. -/
def scanNetworkResults (hosts : List String) (portOrders : String → List Nat)
    (isOpen : String → Nat → Bool) : String → Option (List Nat) :=
  fun h => if h ∈ hosts then hostRecord (portOrders h) (isOpen h) else none

/-! ## Target parsing in `scan_network` (nvector.py 463-475)

`scan_network` calls `ipaddress.ip_network(target, strict=False)` and
catches only `ipaddress.AddressValueError`, falling back to
`hosts = [target]` on that exception.

Modelled from the Python standard library `ipaddress` module (an external
dependency, not part of src/): the `ip_network` factory tries
`IPv4Network`, then `IPv6Network`, internally catching the
`AddressValueError`/`NetmaskValueError` each may raise, and, when both
fail, raises a plain `ValueError` — so `ip_network` itself never lets an
`AddressValueError` escape.  The IPv4 grammar is transcribed below
(dotted quad of decimal octets 0-255 without leading zeros, optional
`/n` with `0 ≤ n ≤ 32`); a dotted-netmask suffix, accepted by Python but
used by no stated property, is modelled as a parse failure, and IPv6
parsing — which always fails on colon-free strings such as every input a
stated property mentions — is modelled as failing. -/

/-- Python exception classes relevant to target parsing.
`addressValueError` subclasses `valueError`; an `except AddressValueError`
clause does not catch a plain `ValueError`. -/
inductive PyErr where
  | valueError
  | addressValueError
  | netmaskValueError
deriving DecidableEq, Repr

/-- Split a character list at every occurrence of `c` (the `str.split`
calls of the `ipaddress` parser). -/
def splitOnCharAux (c : Char) : List Char → List Char → List (List Char)
  | [], acc => [acc.reverse]
  | x :: xs, acc =>
      if x = c then acc.reverse :: splitOnCharAux c xs []
      else splitOnCharAux c xs (x :: acc)

/-- `splitOnChar c l` splits `l` on the separator `c`, keeping empty
pieces, like Python's `str.split(c)`. -/
def splitOnChar (c : Char) (l : List Char) : List (List Char) :=
  splitOnCharAux c l []

/-- Decimal value of a digit string. -/
def digitsToNat (l : List Char) : Nat :=
  l.foldl (fun n c => 10 * n + (c.toNat - '0'.toNat)) 0

/-- One IPv4 octet (`ipaddress._parse_octet`): 1-3 ASCII digits, value at
most 255, no leading zero in a multi-digit octet. -/
def parseOctet (l : List Char) : Option Nat :=
  if l = [] then none
  else if 3 < l.length then none
  else if ¬ l.all Char.isDigit then none
  else if 1 < l.length ∧ l.head? = some '0' then none
  else if digitsToNat l ≤ 255 then some (digitsToNat l) else none

/-- A dotted-quad IPv4 address: exactly four octets. -/
def parseIPv4Addr (l : List Char) : Option (Nat × Nat × Nat × Nat) :=
  match splitOnChar '.' l with
  | [a, b, c, d] =>
      match parseOctet a, parseOctet b, parseOctet c, parseOctet d with
      | some a', some b', some c', some d' => some (a', b', c', d')
      | _, _, _, _ => none
  | _ => none

/-- A numeric prefix length (`ipaddress._prefix_from_prefix_string`):
all-digit string whose value is at most 32. -/
def parsePrefixLen (l : List Char) : Option Nat :=
  if l = [] then none
  else if ¬ l.all Char.isDigit then none
  else if digitsToNat l ≤ 32 then some (digitsToNat l) else none

/-- An IPv4 network as `IPv4Network(..., strict=False)` produces it: the
written address plus a prefix length (host bits are zeroed when the
network is used, see `networkBase`). -/
structure IPv4Net where
  addr : Nat × Nat × Nat × Nat
  prefixLen : Nat
deriving DecidableEq, Repr

/-- `IPv4Network(s, strict=False)` viewed as a partial function: `none`
stands for the `AddressValueError`/`NetmaskValueError` the constructor
raises (more than one `/` included). -/
def parseIPv4Network (s : String) : Option IPv4Net :=
  match splitOnChar '/' s.toList with
  | [a] => (parseIPv4Addr a).map (fun ad => ⟨ad, 32⟩)
  | [a, p] =>
      match parseIPv4Addr a, parsePrefixLen p with
      | some ad, some pl => some ⟨ad, pl⟩
      | _, _ => none
  | _ => none

/-- The `ipaddress.ip_network` factory: a parsable IPv4 input succeeds;
otherwise the internally caught constructor errors are converted into a
plain `ValueError`.  In particular the factory never raises
`AddressValueError`. -/
def ip_network (s : String) : Except PyErr IPv4Net :=
  match parseIPv4Network s with
  | some net => Except.ok net
  | none => Except.error PyErr.valueError

/-- The 32-bit number of a dotted quad. -/
def ipNum (o : Nat × Nat × Nat × Nat) : Nat :=
  o.1 * 2 ^ 24 + o.2.1 * 2 ^ 16 + o.2.2.1 * 2 ^ 8 + o.2.2.2

/-- Dotted-quad string of a 32-bit number. -/
def numToDotted (n : Nat) : String :=
  toString (n / 2 ^ 24 % 256) ++ "." ++ toString (n / 2 ^ 16 % 256) ++ "." ++
    toString (n / 2 ^ 8 % 256) ++ "." ++ toString (n % 256)

/-- Network base address: host bits zeroed (`strict=False` semantics). -/
def networkBase (net : IPv4Net) : Nat :=
  ipNum net.addr / 2 ^ (32 - net.prefixLen) * 2 ^ (32 - net.prefixLen)

/-- `network.hosts()` (nvector.py 466): all usable host addresses — the
range without network and broadcast address for networks of four or more
addresses, every address for /31 and /32 networks. -/
def hostsOf (net : IPv4Net) : List String :=
  if 2 < 2 ^ (32 - net.prefixLen) then
    (List.range (2 ^ (32 - net.prefixLen) - 2)).map
      (fun i => numToDotted (networkBase net + 1 + i))
  else
    (List.range (2 ^ (32 - net.prefixLen))).map
      (fun i => numToDotted (networkBase net + i))

/-- The 255-host cap of `scan_network` (nvector.py 469-471). -/
def capHosts (hs : List String) : List String :=
  if 255 < hs.length then hs.take 255 else hs

/-- The target-parsing block of `scan_network` (nvector.py 463-475): the
`try` around `ip_network`, the host expansion and cap, and the
`except ipaddress.AddressValueError` fallback to `[target]`.  Any other
exception — in particular the plain `ValueError` that `ip_network`
raises for a malformed target — propagates out of `scan_network`. -/
def scan_network_parse_hosts (target : String) : Except PyErr (List String) :=
  match ip_network target with
  | Except.ok net => Except.ok (capHosts (hostsOf net))
  | Except.error e =>
      if e = PyErr.addressValueError then Except.ok [target]
      else Except.error e

/-! ## Per-instance result state across `scan_network` invocations

`RawPortScanner.__init__` (nvector.py 112-123) creates the mutable maps
`scan_results`, `share_results` and `host_details` once per instance;
`scan_network` (455-513) executes `self.host_details.clear()` at its
start — and clears nothing else — then dispatches `scan_host` over the
host list and returns the three instance maps.  We model the three maps
as the scanner-instance state and one `scan_network` invocation as a
state transformer over an abstract scan environment (the expanded host
list, port list and stable probe/share oracles).  `scan_host` runs
concurrently per host but each write is keyed by the host being scanned,
so the fold order over hosts is immaterial for the stated properties. -/

/-- The `host_details` entry `scan_host` stores for a host with open
ports (nvector.py 225-232).  `open_ports` is kept in sorted order (the
source appends in completion order; only membership and multiplicity are
consumed by verified properties); the float `avg_response_time` and the
per-port timing dicts are not modelled. -/
structure HostDetail where
  ip : String
  open_ports : List Nat
  os_detection : OSResult
  port_count : Nat
deriving DecidableEq, Repr

/-- The three per-instance result maps of `RawPortScanner`. -/
structure ScannerState where
  scan_results : String → Option (List Nat)
  share_results : String → Option (List String)
  host_details : String → Option HostDetail

/-- One `scan_network` invocation's environment: the expanded host list
and per-scan configuration, with the network's stable behaviour as
oracles (`isOpen` per host and port, `sharesOf` for SMB enumeration). -/
structure ScanEnv where
  hosts : List String
  ports : List Nat
  isOpen : String → Nat → Bool
  enumerate_shares : Bool
  sharesOf : String → List String

/-- The state effect of `scan_host` on one host (nvector.py 218-243): a
host with no open ports writes nothing; otherwise `scan_results` and
`host_details` gain an entry for the host, and — when share enumeration
is on, a file-service port (445, 139 or 2049) is open, and the
enumerator returns a non-empty list — `share_results` gains one too. -/
def scan_host_update (env : ScanEnv) (st : ScannerState) (host : String) :
    ScannerState :=
  if scanHostOpenPorts env.ports (env.isOpen host) = [] then st
  else
    { scan_results := fun h =>
        if h = host then some (scanHostOpenPorts env.ports (env.isOpen host))
        else st.scan_results h
      host_details := fun h =>
        if h = host then
          some ⟨host, scanHostOpenPorts env.ports (env.isOpen host),
            detect_os (scanHostOpenPorts env.ports (env.isOpen host)),
            (scanHostOpenPorts env.ports (env.isOpen host)).length⟩
        else st.host_details h
      share_results := fun h =>
        if h = host ∧ env.enumerate_shares = true ∧
            (scanHostOpenPorts env.ports (env.isOpen host)).any
              (fun p => p == 445 || p == 139 || p == 2049) = true ∧
            env.sharesOf host ≠ [] then
          some (env.sharesOf host)
        else st.share_results h }

/-- One `scan_network` invocation as a state transformer (nvector.py
455-513): `self.host_details.clear()` first (461), then every host of the
run is scanned.  The returned result of `scan_network` is exactly the
three maps of the final state (509-513). -/
def scan_network_run (st : ScannerState) (env : ScanEnv) : ScannerState :=
  env.hosts.foldl (scan_host_update env)
    { st with host_details := fun _ => none }

/-- A concrete prior instance state: an earlier invocation on the same
scanner discovered host 10.0.0.9 with port 80 open and one share. -/
def priorState : ScannerState where
  scan_results := fun h => if h = "10.0.0.9" then some [80] else none
  share_results := fun h => if h = "10.0.0.9" then some ["docs"] else none
  host_details := fun _ => none

/-- A concrete later invocation: one host, port 80 probed, nothing open. -/
def laterEnv : ScanEnv where
  hosts := ["10.0.0.5"]
  ports := [80]
  isOpen := fun _ _ => false
  enumerate_shares := true
  sharesOf := fun _ => []

/-! ## Helper lemmas -/

/-- Sorting with `insertionSort` identifies permutation-equal lists: the
sorted arrangement of a multiset of ports is unique. -/
lemma insertionSort_eq_of_perm {l₁ l₂ : List Nat} (h : l₁.Perm l₂) :
    List.insertionSort (· ≤ ·) l₁ = List.insertionSort (· ≤ ·) l₂ :=
  List.eq_of_perm_of_sorted
    ((List.perm_insertionSort _ l₁).trans (h.trans (List.perm_insertionSort _ l₂).symm))
    (List.sorted_insertionSort _ l₁) (List.sorted_insertionSort _ l₂)

/-- A positive maximum score needs at least one open port. -/
lemma ne_nil_of_maxScore_pos {ps : List Nat} (h : 0 < maxScore ps) : ps ≠ [] := by
  intro hnil
  subst hnil
  exact absurd h (by decide)

/-- A positive Windows score needs at least one open port. -/
lemma ne_nil_of_windowsScore_pos {ps : List Nat} (h : 0 < windowsScore ps) :
    ps ≠ [] := by
  intro hnil
  subst hnil
  exact absurd h (by decide)

/-- The maximum of the four scores is attained by one of them. -/
lemma maxScore_cases (ps : List Nat) :
    maxScore ps = windowsScore ps ∨ maxScore ps = linuxScore ps ∨
    maxScore ps = macosScore ps ∨ maxScore ps = embeddedScore ps := by
  unfold maxScore
  rcases max_choice (windowsScore ps)
      (max (linuxScore ps) (max (macosScore ps) (embeddedScore ps))) with h | h
  · exact Or.inl h
  · rw [h]
    rcases max_choice (linuxScore ps) (max (macosScore ps) (embeddedScore ps)) with
      h2 | h2
    · exact Or.inr (Or.inl h2)
    · rw [h2]
      rcases max_choice (macosScore ps) (embeddedScore ps) with h3 | h3
      · exact Or.inr (Or.inr (Or.inl h3))
      · exact Or.inr (Or.inr (Or.inr h3))

/-- `catOf` on a literal result record. -/
lemma catOf_mk (os c : String) :
    catOf ⟨os, c⟩ =
      (if os = "Windows" ∨ os = "Windows Server" then OSCat.windows
       else if os = "Linux/Unix" then OSCat.linux
       else if os = "macOS" then OSCat.macos
       else if os = "Embedded/IoT" then OSCat.embedded
       else OSCat.unknown) := rfl

/-- Both Windows os names fall in the Windows category. -/
lemma catOf_winName (ps : List Nat) (c : String) :
    catOf ⟨winName ps, c⟩ = OSCat.windows := by
  unfold winName
  by_cases hs : 1433 ∈ ps ∨ 1434 ∈ ps ∨ 5985 ∈ ps ∨ 5986 ∈ ps
  · rw [if_pos hs, catOf_mk, if_pos (Or.inr rfl)]
  · rw [if_neg hs, catOf_mk, if_pos (Or.inl rfl)]

lemma catOf_linux (c : String) : catOf ⟨"Linux/Unix", c⟩ = OSCat.linux := by
  rw [catOf_mk, if_neg (by decide), if_pos rfl]

lemma catOf_macos (c : String) : catOf ⟨"macOS", c⟩ = OSCat.macos := by
  rw [catOf_mk, if_neg (by decide), if_neg (by decide), if_pos rfl]

lemma catOf_embedded (c : String) : catOf ⟨"Embedded/IoT", c⟩ = OSCat.embedded := by
  rw [catOf_mk, if_neg (by decide), if_neg (by decide), if_neg (by decide),
    if_pos rfl]

/-- `winName` takes one of the two Windows names. -/
lemma winName_cases (ps : List Nat) :
    winName ps = "Windows Server" ∨ winName ps = "Windows" := by
  unfold winName
  split
  · exact Or.inl rfl
  · exact Or.inr rfl

/-- The Windows branch of `detect_os` (nvector.py 415-418). -/
lemma detect_os_windows_branch (ps : List Nat) (hne : ps ≠ [])
    (hw : windowsScore ps = maxScore ps) (hpos : 0 < windowsScore ps) :
    detect_os ps = ⟨winName ps, winConfidence ps⟩ := by
  have hmx : ¬ maxScore ps = 0 := by omega
  unfold detect_os
  rw [if_neg hne, if_neg hmx, if_pos ⟨hw, hpos⟩]

/-- The Linux branch of `detect_os` (nvector.py 419-422). -/
lemma detect_os_linux_branch (ps : List Nat) (hne : ps ≠ [])
    (hnw : ¬ (windowsScore ps = maxScore ps ∧ 0 < windowsScore ps))
    (hl : linuxScore ps = maxScore ps) (hpos : 0 < linuxScore ps) :
    detect_os ps = ⟨"Linux/Unix", linuxConfidence ps⟩ := by
  have hmx : ¬ maxScore ps = 0 := by omega
  unfold detect_os
  rw [if_neg hne, if_neg hmx, if_neg hnw, if_pos ⟨hl, hpos⟩]

/-- The macOS branch of `detect_os` (nvector.py 423-426). -/
lemma detect_os_macos_branch (ps : List Nat) (hne : ps ≠ [])
    (hnw : ¬ (windowsScore ps = maxScore ps ∧ 0 < windowsScore ps))
    (hnl : ¬ (linuxScore ps = maxScore ps ∧ 0 < linuxScore ps))
    (hm : macosScore ps = maxScore ps) (hpos : 0 < macosScore ps) :
    detect_os ps = ⟨"macOS", macosConfidence ps⟩ := by
  have hmx : ¬ maxScore ps = 0 := by omega
  unfold detect_os
  rw [if_neg hne, if_neg hmx, if_neg hnw, if_neg hnl, if_pos ⟨hm, hpos⟩]

/-- The embedded branch of `detect_os` (nvector.py 427-430). -/
lemma detect_os_embedded_branch (ps : List Nat) (hne : ps ≠ [])
    (hnw : ¬ (windowsScore ps = maxScore ps ∧ 0 < windowsScore ps))
    (hnl : ¬ (linuxScore ps = maxScore ps ∧ 0 < linuxScore ps))
    (hnm : ¬ (macosScore ps = maxScore ps ∧ 0 < macosScore ps))
    (he : embeddedScore ps = maxScore ps) (hpos : 0 < embeddedScore ps) :
    detect_os ps = ⟨"Embedded/IoT", embeddedConfidence ps⟩ := by
  have hmx : ¬ maxScore ps = 0 := by omega
  unfold detect_os
  rw [if_neg hne, if_neg hmx, if_neg hnw, if_neg hnl, if_neg hnm, if_pos ⟨he, hpos⟩]

/-- `scan_host_update` leaves every other host's entries unchanged. -/
lemma scan_host_update_apply_ne (env : ScanEnv) (st : ScannerState)
    (host h : String) (hne : h ≠ host) :
    (scan_host_update env st host).scan_results h = st.scan_results h ∧
    (scan_host_update env st host).share_results h = st.share_results h ∧
    (scan_host_update env st host).host_details h = st.host_details h := by
  unfold scan_host_update
  split
  · exact ⟨rfl, rfl, rfl⟩
  · exact ⟨if_neg hne, if_neg (fun hc => hne hc.1), if_neg hne⟩

/-- Folding `scan_host_update` over a host list never touches entries of
hosts outside the list. -/
lemma scan_network_fold_not_mem (env : ScanEnv) (hosts : List String)
    (st : ScannerState) (h : String) (hnm : h ∉ hosts) :
    (hosts.foldl (scan_host_update env) st).scan_results h = st.scan_results h ∧
    (hosts.foldl (scan_host_update env) st).share_results h = st.share_results h ∧
    (hosts.foldl (scan_host_update env) st).host_details h = st.host_details h := by
  induction hosts generalizing st with
  | nil => exact ⟨rfl, rfl, rfl⟩
  | cons a as ih =>
      have hna : h ≠ a := fun hc => hnm (hc ▸ List.mem_cons_self a as)
      have hnas : h ∉ as := fun hc => hnm (List.mem_cons_of_mem a hc)
      have step := scan_host_update_apply_ne env st a h hna
      have rest := ih (scan_host_update env st a) hnas
      exact ⟨rest.1.trans step.1, rest.2.1.trans step.2.1, rest.2.2.trans step.2.2⟩

/-! ## Claim theorems -/

/-- C1: `scan_network` invoked with the sole malformed target
`"300.300.300.300/24"` does not complete normally: `ip_network` raises a
plain `ValueError` for it, which the `except ipaddress.AddressValueError`
clause of nvector.py 473 does not catch, so the exception escapes
`scan_network` instead of producing an empty result with a warning. -/
theorem malformed_sole_target_raises_valueError :
    ip_network "300.300.300.300/24" = Except.error PyErr.valueError ∧
    scan_network_parse_hosts "300.300.300.300/24" = Except.error PyErr.valueError ∧
    PyErr.valueError ≠ PyErr.addressValueError :=
  ⟨rfl, rfl, by decide⟩

/-- C2 counterexample: after an earlier invocation recorded host 10.0.0.9,
a later `scan_network` invocation on the same instance (scanning only
10.0.0.5, which has nothing open) still returns `scan_results` and
`share_results` entries for 10.0.0.9 — the aggregate is not cleared at
the start of the invocation. -/
theorem scan_network_carryover_counterexample :
    (scan_network_run priorState laterEnv).scan_results "10.0.0.9" = some [80] ∧
    (scan_network_run priorState laterEnv).share_results "10.0.0.9" = some ["docs"] :=
  ⟨rfl, rfl⟩

/-- C2 (amended): at the start of each `scan_network` invocation only
`host_details` is cleared; for any host key outside the current run's
host list, the returned `host_details` has no entry while `scan_results`
and `share_results` keep whatever the prior state held. -/
theorem scan_network_clear_semantics (st : ScannerState) (env : ScanEnv)
    (h : String) (hnm : h ∉ env.hosts) :
    (scan_network_run st env).host_details h = none ∧
    (scan_network_run st env).scan_results h = st.scan_results h ∧
    (scan_network_run st env).share_results h = st.share_results h := by
  unfold scan_network_run
  have hf := scan_network_fold_not_mem env env.hosts
    { st with host_details := fun _ => none } h hnm
  exact ⟨hf.2.2, hf.1, hf.2.1⟩

/-- C2 witness: the amended clearing semantics at the concrete prior
state and later environment. -/
theorem scan_network_clear_semantics_witness :
    (scan_network_run priorState laterEnv).host_details "10.0.0.9" = none ∧
    (scan_network_run priorState laterEnv).scan_results "10.0.0.9" =
      priorState.scan_results "10.0.0.9" ∧
    (scan_network_run priorState laterEnv).share_results "10.0.0.9" =
      priorState.share_results "10.0.0.9" :=
  scan_network_clear_semantics priorState laterEnv "10.0.0.9" (by decide)

/-- C3 counterexample: on the open-port set {139, 22, 631, 81} all four
category scores are 3 — nonzero and exactly equal — yet `detect_os`
returns Windows with Medium confidence, not the Unknown/Low result the
no-signal case produces. -/
theorem all_equal_nonzero_scores_counterexample :
    windowsScore [139, 22, 631, 81] = 3 ∧ linuxScore [139, 22, 631, 81] = 3 ∧
    macosScore [139, 22, 631, 81] = 3 ∧ embeddedScore [139, 22, 631, 81] = 3 ∧
    detect_os [139, 22, 631, 81] = ⟨"Windows", "Medium"⟩ ∧
    ¬ detect_os [139, 22, 631, 81] = ⟨"Unknown", "Low"⟩ := by decide

/-- C3 (amended): for every open-port set on which all four category
scores are nonzero and exactly equal, the classifier resolves the
four-way tie to the Windows category (per the precedence tie-break); the
Unknown/Low result arises only from the all-scores-zero path. -/
theorem detect_os_all_equal_nonzero_windows (ps : List Nat)
    (hwl : windowsScore ps = linuxScore ps)
    (hlm : linuxScore ps = macosScore ps)
    (hme : macosScore ps = embeddedScore ps)
    (hpos : 0 < windowsScore ps) :
    catOf (detect_os ps) = OSCat.windows := by
  have hne : ps ≠ [] := ne_nil_of_windowsScore_pos hpos
  have hw : windowsScore ps = maxScore ps := by
    unfold maxScore
    rw [← hme, ← hlm, ← hwl, Nat.max_self, Nat.max_self, Nat.max_self]
  rw [detect_os_windows_branch ps hne hw hpos]
  exact catOf_winName ps _

/-- C3 witness: the amended tie semantics at the concrete four-way tie. -/
theorem detect_os_all_equal_nonzero_windows_witness :
    catOf (detect_os [139, 22, 631, 81]) = OSCat.windows :=
  detect_os_all_equal_nonzero_windows [139, 22, 631, 81]
    (by decide) (by decide) (by decide) (by decide)

/-- C4: whenever the maximum score is nonzero — in particular whenever
two or more categories tie at the nonzero maximum — the classifier
returns the category attaining the maximum that comes first in the fixed
precedence Windows > Linux > macOS > Embedded. -/
theorem detect_os_tie_break_precedence (ps : List Nat)
    (hpos : 0 < maxScore ps) :
    catOf (detect_os ps) = firstMaxCat ps := by
  have hne : ps ≠ [] := ne_nil_of_maxScore_pos hpos
  by_cases hw : windowsScore ps = maxScore ps
  · have hwpos : 0 < windowsScore ps := by omega
    rw [detect_os_windows_branch ps hne hw hwpos]
    unfold firstMaxCat
    rw [if_pos hw]
    exact catOf_winName ps _
  · by_cases hl : linuxScore ps = maxScore ps
    · have hlpos : 0 < linuxScore ps := by omega
      rw [detect_os_linux_branch ps hne (fun hc => hw hc.1) hl hlpos]
      unfold firstMaxCat
      rw [if_neg hw, if_pos hl]
      exact catOf_linux _
    · by_cases hm : macosScore ps = maxScore ps
      · have hmpos : 0 < macosScore ps := by omega
        rw [detect_os_macos_branch ps hne (fun hc => hw hc.1) (fun hc => hl hc.1)
          hm hmpos]
        unfold firstMaxCat
        rw [if_neg hw, if_neg hl, if_pos hm]
        exact catOf_macos _
      · have he : embeddedScore ps = maxScore ps := by
          rcases maxScore_cases ps with h | h | h | h
          · exact absurd h.symm hw
          · exact absurd h.symm hl
          · exact absurd h.symm hm
          · exact h.symm
        have hepos : 0 < embeddedScore ps := by omega
        rw [detect_os_embedded_branch ps hne (fun hc => hw hc.1)
          (fun hc => hl hc.1) (fun hc => hm hc.1) he hepos]
        unfold firstMaxCat
        rw [if_neg hw, if_neg hl, if_neg hm]
        exact catOf_embedded _

/-- C4 witness: Windows and Linux tie at the maximum score 3 on
{139, 22}; the classifier resolves the tie to Windows, the first tied
category in the precedence. -/
theorem detect_os_tie_break_precedence_witness :
    catOf (detect_os [139, 22]) = firstMaxCat [139, 22] :=
  detect_os_tie_break_precedence [139, 22] (by decide)

/-- C5 counterexample: when the requested PortSet contains the duplicate
entries [80, 80] and port 80 is open, the recorded open-port list is
[80, 80] — sorted, but with a duplicate, so not strictly ascending. -/
theorem scan_host_duplicate_request_counterexample :
    scanHostOpenPorts [80, 80] (fun p => p == 80) = [80, 80] ∧
    ¬ (scanHostOpenPorts [80, 80] (fun p => p == 80)).Nodup ∧
    hostRecord [80, 80] (fun p => p == 80) = some [80, 80] := by decide

/-- C5 (amended): for every host whose requested PortSet contains no
duplicate port numbers, the recorded open-port list is sorted strictly
ascending with no duplicates, and every entry was a requested port that
probed open.  (With a duplicated request, an open port is recorded once
per occurrence, so the list is sorted ascending but not strictly.) -/
theorem scan_host_openPorts_sorted_nodup (ports : List Nat)
    (isOpen : Nat → Bool) (hnd : ports.Nodup) :
    (scanHostOpenPorts ports isOpen).Sorted (· < ·) ∧
    (scanHostOpenPorts ports isOpen).Nodup ∧
    ∀ p ∈ scanHostOpenPorts ports isOpen, p ∈ ports ∧ isOpen p = true := by
  have hperm := List.perm_insertionSort (α := Nat) (· ≤ ·) (ports.filter isOpen)
  have hnodup : (scanHostOpenPorts ports isOpen).Nodup :=
    hperm.nodup_iff.mpr (hnd.filter isOpen)
  refine ⟨?_, hnodup, ?_⟩
  · exact (List.sorted_insertionSort (· ≤ ·) (ports.filter isOpen)).lt_of_le hnodup
  · intro p hp
    have hmem : p ∈ ports.filter isOpen := hperm.mem_iff.mp hp
    exact List.mem_filter.mp hmem

/-- C5 witness: the amended property at a duplicate-free request. -/
theorem scan_host_openPorts_sorted_nodup_witness :
    (scanHostOpenPorts [445, 135] (fun _ => true)).Sorted (· < ·) ∧
    (scanHostOpenPorts [445, 135] (fun _ => true)).Nodup ∧
    ∀ p ∈ scanHostOpenPorts [445, 135] (fun _ => true),
      p ∈ [445, 135] ∧ (fun _ => true) p = true :=
  scan_host_openPorts_sorted_nodup [445, 135] (fun _ => true) (by decide)

/-- C6: for a fixed target with stable per-port outcomes, the per-host
open-port records are identical whichever permutation the host list is
dispatched in and whichever permutations the per-host port lists are
probed in — randomization changes only order and timing (the stealth
delay does not enter the result), never the recorded open-port sets. -/
theorem randomization_independent_results (hosts hostsShuffled : List String)
    (ports : List Nat) (portOrders : String → List Nat)
    (isOpen : String → Nat → Bool) (hh : hostsShuffled.Perm hosts)
    (hp : ∀ h, (portOrders h).Perm ports) :
    scanNetworkResults hostsShuffled portOrders isOpen =
      scanNetworkResults hosts (fun _ => ports) isOpen := by
  funext h
  unfold scanNetworkResults
  have hrec : hostRecord (portOrders h) (isOpen h) = hostRecord ports (isOpen h) := by
    unfold hostRecord scanHostOpenPorts
    rw [insertionSort_eq_of_perm ((hp h).filter (isOpen h))]
  by_cases hmem : h ∈ hosts
  · rw [if_pos (hh.mem_iff.mpr hmem), if_pos hmem, hrec]
  · rw [if_neg (fun hc => hmem (hh.mem_iff.mp hc)), if_neg hmem]

/-- C6 witness: a two-host, two-port scan with shuffled host and port
order records the same open-port map as the sequential scan. -/
theorem randomization_independent_results_witness :
    scanNetworkResults ["10.0.0.2", "10.0.0.1"] (fun _ => [445, 22])
        (fun _ p => p == 22) =
      scanNetworkResults ["10.0.0.1", "10.0.0.2"] (fun _ => [22, 445])
        (fun _ p => p == 22) :=
  randomization_independent_results ["10.0.0.1", "10.0.0.2"]
    ["10.0.0.2", "10.0.0.1"] [22, 445] (fun _ => [445, 22])
    (fun _ p => p == 22) (by decide)
    (fun _ => by show List.Perm [445, 22] [22, 445]; decide)

/-- C7: a host with open ports exactly {135, 139, 445} is classified as
Windows with High confidence: the per-port Windows scores (4+3+3) plus
the combination bonuses for {135,139,445} (+5) and {139,445} (+3) give a
Windows score of 18, past the High threshold of 6. -/
theorem windows_stack_classified_high :
    detect_os [135, 139, 445] = ⟨"Windows", "High"⟩ ∧
    windowsScore [135, 139, 445] = 18 := by decide

/-- C8: a single-port probe never propagates an exception: every socket
interaction outcome — success, nonzero `connect_ex` code, or a raised
socket-level error — yields a normal `(isOpen, elapsed)` return, with
`isOpen = false` for every error and an elapsed time present exactly
when the connect succeeded. -/
theorem scan_port_never_raises (o : ConnectOutcome) :
    scan_port o = Except.ok (outcomeIsOpen o, outcomeElapsed o) ∧
    (outcomeElapsed o).isSome = outcomeIsOpen o := by
  cases o with
  | completed errcode elapsed =>
      by_cases h : errcode = 0
      · subst h
        exact ⟨rfl, rfl⟩
      · simp [scan_port, outcomeIsOpen, outcomeElapsed, h]
  | raisedSocketError e => exact ⟨rfl, rfl⟩

/-- C9: for every non-empty open-port set whose maximum category score is
positive, the classifier returns one of the named OS categories — the
final `Conflicting indicators` fall-through that returns Unknown is
unreachable, because the maximum is always attained by one of the four
scores tested by the preceding branches. -/
theorem detect_os_conflicting_branch_unreachable (ps : List Nat)
    (hne : ps ≠ []) (hpos : 0 < maxScore ps) :
    (detect_os ps).os ∈
      ["Windows", "Windows Server", "Linux/Unix", "macOS", "Embedded/IoT"] ∧
    (detect_os ps).os ≠ "Unknown" := by
  by_cases hw : windowsScore ps = maxScore ps
  · have hwpos : 0 < windowsScore ps := by omega
    rw [detect_os_windows_branch ps hne hw hwpos]
    rcases winName_cases ps with h | h
    · show winName ps ∈ _ ∧ winName ps ≠ _
      rw [h]
      exact ⟨by decide, by decide⟩
    · show winName ps ∈ _ ∧ winName ps ≠ _
      rw [h]
      exact ⟨by decide, by decide⟩
  · by_cases hl : linuxScore ps = maxScore ps
    · have hlpos : 0 < linuxScore ps := by omega
      rw [detect_os_linux_branch ps hne (fun hc => hw hc.1) hl hlpos]
      show ("Linux/Unix" : String) ∈ _ ∧ ("Linux/Unix" : String) ≠ _
      exact ⟨by decide, by decide⟩
    · by_cases hm : macosScore ps = maxScore ps
      · have hmpos : 0 < macosScore ps := by omega
        rw [detect_os_macos_branch ps hne (fun hc => hw hc.1) (fun hc => hl hc.1)
          hm hmpos]
        show ("macOS" : String) ∈ _ ∧ ("macOS" : String) ≠ _
        exact ⟨by decide, by decide⟩
      · have he : embeddedScore ps = maxScore ps := by
          rcases maxScore_cases ps with h | h | h | h
          · exact absurd h.symm hw
          · exact absurd h.symm hl
          · exact absurd h.symm hm
          · exact h.symm
        have hepos : 0 < embeddedScore ps := by omega
        rw [detect_os_embedded_branch ps hne (fun hc => hw hc.1)
          (fun hc => hl hc.1) (fun hc => hm hc.1) he hepos]
        show ("Embedded/IoT" : String) ∈ _ ∧ ("Embedded/IoT" : String) ≠ _
        exact ⟨by decide, by decide⟩

/-- C9 witness: the open-port set {22} has positive maximum score and is
classified as a named category. -/
theorem detect_os_conflicting_branch_unreachable_witness :
    (detect_os [22]).os ∈
      ["Windows", "Windows Server", "Linux/Unix", "macOS", "Embedded/IoT"] ∧
    (detect_os [22]).os ≠ "Unknown" :=
  detect_os_conflicting_branch_unreachable [22] (by decide) (by decide)

/-- C10: whenever the Windows category wins the classification and a
Windows-server port (1433, 1434, 5985 or 5986) is among the open ports,
the reported os name is `"Windows Server"` — a value outside the
Windows/Linux-Unix/macOS/Embedded-IoT/Unknown domain the spec lists. -/
theorem detect_os_windows_server_name (ps : List Nat)
    (hmax : windowsScore ps = maxScore ps) (hpos : 0 < windowsScore ps)
    (hsrv : 1433 ∈ ps ∨ 1434 ∈ ps ∨ 5985 ∈ ps ∨ 5986 ∈ ps) :
    (detect_os ps).os = "Windows Server" := by
  have hne : ps ≠ [] := ne_nil_of_windowsScore_pos hpos
  rw [detect_os_windows_branch ps hne hmax hpos]
  show winName ps = "Windows Server"
  unfold winName
  rw [if_pos hsrv]

/-- C10 witness: ports {135, 1433} make Windows win with 1433 open, and
the reported name is Windows Server. -/
theorem detect_os_windows_server_name_witness :
    (detect_os [135, 1433]).os = "Windows Server" :=
  detect_os_windows_server_name [135, 1433] (by decide) (by decide) (by decide)

end NetworkVector
